import Mathlib

/-!
Shallow embedding of the session/token-handling core of
`volkswagencarnet` (`vw_connection.py`): token validation and refresh,
the HTTP verb wrappers with their rate-limit retry policy, the service
status tracker, the login redirect loop and the login finalization.
Python dicts are modelled as association lists, network responses as
explicit parameters, and exceptions as `Except` values.
-/

namespace VW

/-- Association-list lookup, modelling a Python dict read `d.get(k)`. -/
def lookupKV {α : Type} : List (String × α) → String → Option α
  | [], _ => none
  | (k, v) :: rest, key => if k = key then some v else lookupKV rest key

/-- Association-list update, modelling a Python dict write `d[k] = v`. -/
def setKV {α : Type} : List (String × α) → String → α → List (String × α)
  | [], key, v => [(key, v)]
  | (k, w) :: rest, key, v =>
    if k = key then (key, v) :: rest else (k, w) :: setKV rest key v

/-- The for-loop `for token in tokens: d[token] = tokens[token]`:
fold every pair of `upd` into `old`, overwriting matching keys. -/
def mergeTokens (old upd : List (String × String)) : List (String × String) :=
  upd.foldl (fun acc kv => setKV acc kv.1 kv.2) old

theorem lookupKV_setKV_self {α : Type} (l : List (String × α)) (k : String) (v : α) :
    lookupKV (setKV l k v) k = some v := by
  induction l with
  | nil => simp [setKV, lookupKV]
  | cons hd tl ih =>
    obtain ⟨k0, v0⟩ := hd
    by_cases hk : k0 = k
    · simp [setKV, hk, lookupKV]
    · simp [setKV, hk, lookupKV, ih]

theorem lookupKV_setKV_other {α : Type} (l : List (String × α)) (k k' : String) (v : α)
    (hne : k ≠ k') : lookupKV (setKV l k v) k' = lookupKV l k' := by
  induction l with
  | nil => simp [setKV, lookupKV, hne]
  | cons hd tl ih =>
    obtain ⟨k0, v0⟩ := hd
    by_cases hk : k0 = k
    · subst hk
      simp [setKV, lookupKV, hne]
    · simp [setKV, hk, lookupKV, ih]

theorem lookupKV_eq_none_of_not_mem {α : Type} (l : List (String × α)) (k : String)
    (h : ∀ p ∈ l, p.1 ≠ k) : lookupKV l k = none := by
  induction l with
  | nil => rfl
  | cons hd tl ih =>
    have h0 : hd.1 ≠ k := h hd (by simp)
    obtain ⟨k0, v0⟩ := hd
    simp only [lookupKV]
    rw [if_neg h0]
    exact ih (fun p hp => h p (by simp [hp]))

theorem not_mem_of_lookupKV_eq_none {α : Type} (l : List (String × α)) (k : String)
    (h : lookupKV l k = none) : ∀ p ∈ l, p.1 ≠ k := by
  induction l with
  | nil => simp
  | cons hd tl ih =>
    obtain ⟨k0, v0⟩ := hd
    simp only [lookupKV] at h
    by_cases hk : k0 = k
    · simp [hk] at h
    · intro p hp
      rcases List.mem_cons.mp hp with h1 | h1
      · subst h1; exact hk
      · exact ih (by simpa [hk] using h) p h1

theorem lookupKV_mergeTokens_of_none (old upd : List (String × String)) (k : String)
    (h : lookupKV upd k = none) :
    lookupKV (mergeTokens old upd) k = lookupKV old k := by
  induction upd generalizing old with
  | nil => rfl
  | cons hd tl ih =>
    obtain ⟨k0, v0⟩ := hd
    simp only [lookupKV] at h
    by_cases hk : k0 = k
    · simp [hk] at h
    · simp only [mergeTokens, List.foldl_cons] at *
      rw [ih (setKV old k0 v0) (by simpa [hk] using h)]
      exact lookupKV_setKV_other old k0 k v0 hk

theorem lookupKV_mergeTokens_of_some (old upd : List (String × String)) (k : String)
    (v : String) (hnd : (upd.map Prod.fst).Nodup) (h : lookupKV upd k = some v) :
    lookupKV (mergeTokens old upd) k = some v := by
  induction upd generalizing old with
  | nil => simp [lookupKV] at h
  | cons hd tl ih =>
    obtain ⟨k0, v0⟩ := hd
    simp only [List.map_cons, List.nodup_cons] at hnd
    simp only [lookupKV] at h
    by_cases hk : k0 = k
    · subst hk
      have hv : v0 = v := by simpa using h
      subst hv
      have htl : lookupKV tl k0 = none := by
        apply lookupKV_eq_none_of_not_mem
        intro p hp hpk
        exact hnd.1 (hpk ▸ List.mem_map_of_mem Prod.fst hp)
      have hrest := lookupKV_mergeTokens_of_none (setKV old k0 v0) tl k0 htl
      simp only [mergeTokens, List.foldl_cons] at *
      rw [hrest]
      exact lookupKV_setKV_self old k0 v0
    · rw [if_neg hk] at h
      simp only [mergeTokens, List.foldl_cons]
      exact ih (setKV old k0 v0) hnd.2 h

/-! ## TokenValidator (`Connection.validate_tokens`)

The source decodes the `exp` claim of both the identity and the access
token, compares `now` and `now + interval` against the two expiry
instants, and triggers `refresh_tokens` when either check fires.  We
model instants as integers and the outcome of the (single possible)
refresh call as the boolean `refreshOk`; the second component of the
result counts how many refresh calls were issued. -/
def validate_tokens_core (id_exp at_exp now interval : Int) (refreshOk : Bool) :
    Bool × Nat :=
  if now ≥ id_exp ∨ now ≥ at_exp then
    (refreshOk, 1)
  else if now + interval ≥ id_exp ∨ now + interval ≥ at_exp then
    (refreshOk, 1)
  else
    (true, 0)

/-- Python exception kinds relevant to the embedded fragment. -/
inductive PyError : Type
  | keyError
  | osError
  | otherError
deriving DecidableEq, Repr

/-- `Connection.validate_tokens` including the dict reads that precede the
expiry comparison: `self._session_tokens["identity"]["id_token"]` and
`["access_token"]` raise `KeyError` when the key is absent.  `decodeExp`
stands for `jwt.decode(...).get("exp", None)` followed by `int(...)`;
a token whose decode fails or carries no `exp` claim maps to an error. -/
def validate_tokens (tokens : List (String × List (String × String)))
    (decodeExp : String → Option Int) (now interval : Int) (refreshOk : Bool) :
    Except PyError (Bool × Nat) :=
  match lookupKV tokens "identity" with
  | none => .error .keyError
  | some ts =>
    match lookupKV ts "id_token" with
    | none => .error .keyError
    | some idtoken =>
      match lookupKV ts "access_token" with
      | none => .error .keyError
      | some atoken =>
        match decodeExp idtoken, decodeExp atoken with
        | some id_exp, some at_exp =>
          .ok (validate_tokens_core id_exp at_exp now interval refreshOk)
        | _, _ => .error .otherError

/-- `Connection.validate_login`: delegates to `validate_tokens` and catches
only `OSError`; every other exception propagates to the caller. -/
def validate_login (tokens : List (String × List (String × String)))
    (decodeExp : String → Option Int) (now interval : Int) (refreshOk : Bool) :
    Except PyError Bool :=
  match validate_tokens tokens decodeExp now interval refreshOk with
  | .ok (b, _) => .ok b
  | .error .osError => .ok false
  | .error e => .error e

/-! ## ServiceStatusTracker (`Connection.update_service_status`) -/

/-- The if/elif chain mapping a response code to a health string. -/
def statusOf (code : Nat) : String :=
  if code ∈ [200, 204, 207] then "Up"
  else if code = 401 then "Unauthorized"
  else if code = 403 then "Forbidden"
  else if code = 429 then "Rate limited"
  else if code = 1000 then "Error"
  else "Down"

/-- `charsPrefix p s` holds when `p` is a leading segment of `s`. -/
def charsPrefix : List Char → List Char → Bool
  | [], _ => true
  | _ :: _, [] => false
  | a :: as, b :: bs => a = b && charsPrefix as bs

/-- `charsInfix p s` holds when `p` occurs contiguously inside `s`. -/
def charsInfix (pat : List Char) : List Char → Bool
  | [] => charsPrefix pat []
  | b :: bs => charsPrefix pat (b :: bs) || charsInfix pat bs

/-- Substring test on URLs, modelling Python `pat in url`. -/
def substrIn (pat url : String) : Bool :=
  charsInfix pat.data url.data

/-- The if/elif chain selecting the service-status category from the URL;
`none` models the final `else` branch that only logs. -/
def statusCategory (url : String) : Option String :=
  if substrIn "vehicle/v2/vehicles" url then some "vehicles"
  else if substrIn "parkingposition" url then some "parkingposition"
  else if substrIn "/vehicle/v1/trips/" url then some "trips"
  else if substrIn "capabilities" url then some "capabilities"
  else if substrIn "selectivestatus" url then some "selectivestatus"
  else if substrIn "token" url then some "token"
  else none

/-- `Connection.update_service_status`: record the health value for the
category matched by the URL, or leave the mapping unchanged. -/
def update_service_status (svc : List (String × String)) (url : String)
    (code : Nat) : List (String × String) :=
  match statusCategory url with
  | some cat => setKV svc cat (statusOf code)
  | none => svc

/-! ## TokenRefresher (`Connection.refresh_tokens`)

The whole body runs in a `try` whose `except` returns `False`.  Inputs:
`resp = none` models the POST to the token endpoint raising a transport
exception (nothing after it runs); `resp = some (status, body)` a
response with decoded JSON body `body`.  `verifyThrows` models the JWKS
fetch inside the advisory `verify_tokens` call raising (its result
boolean itself is ignored by the source beyond a log line).  The state
carries the `"identity"` token set, the shared headers and the service
status mapping. -/
structure ConnState : Type where
  identityTokens : List (String × String)
  headers : List (String × String)
  serviceStatus : List (String × String)
deriving DecidableEq, Repr

def refresh_tokens (st : ConnState) (resp : Option (Nat × List (String × String)))
    (verifyThrows : Bool) : Bool × ConnState :=
  match lookupKV st.identityTokens "refresh_token" with
  | none => (false, st)
  | some _ =>
    match resp with
    | none => (false, st)
    | some (status, body) =>
      let st1 : ConnState :=
        { st with serviceStatus := update_service_status st.serviceStatus "token" status }
      if status = 200 then
        match lookupKV body "id_token" with
        | none => (false, st1)
        | some _ =>
          if verifyThrows then (false, st1)
          else
            let newToks := mergeTokens st1.identityTokens body
            let st2 : ConnState := { st1 with identityTokens := newToks }
            match lookupKV newToks "access_token" with
            | some a => (true, { st2 with headers := setKV st2.headers "Authorization" ("Bearer " ++ a) })
            | none => (false, st2)
      else (false, st1)

/-! ## RequestExecutor (`Connection.get` / `post` / `put`)

`_request` either returns a decoded body or raises
`ClientResponseError` carrying the status (`raise_for_status` fires for
every status of 400 and above).  `resp n` is the outcome of the n-th
attempt (`n` is the `tries` counter), `randint lo hi` the inclusive
random draw used for the back-off sleep.  The sleeps that were issued
are returned as a list, so an empty list means no retry happened. -/

def MAX_RETRIES_ON_RATE_LIMIT : Nat := 3

/-- Decoded JSON values, as produced by the response decoder. -/
inductive JsonVal : Type
  | null
  | bool (b : Bool)
  | num (n : Int)
  | str (s : String)
  | arr (xs : List JsonVal)
  | obj (fields : List (String × JsonVal))

/-- One HTTP attempt: a decoded body, or a raised status error. -/
inductive HttpResp : Type
  | ok (body : JsonVal)
  | err (status : Nat)

/-- What `get` hands back to its caller. -/
inductive GetResult : Type
  | body (b : JsonVal)
  | statusEnvelope (status : Nat)

/-- `Connection.get`: catches the status error and branches on the code
in source order (400, 401, 429-with-budget, 500, 502, other); every
branch except the 429 retry returns the status envelope, and only the
401 branch clears the logged-in flag.  The 400/500/502/other branches
differ solely in the logged message, so they share the final case. -/
def getRun (resp : Nat → HttpResp) (randint : Nat → Nat → Nat) (loggedIn : Bool)
    (tries : Nat) : GetResult × Bool × List Nat :=
  match resp tries with
  | .ok b => (.body b, loggedIn, [])
  | .err status =>
    if status = 400 then (.statusEnvelope status, loggedIn, [])
    else if status = 401 then (.statusEnvelope status, false, [])
    else if h : status = 429 ∧ tries < MAX_RETRIES_ON_RATE_LIMIT then
      let d := randint 1 (3 + tries * 2)
      let r := getRun resp randint loggedIn (tries + 1)
      (r.1, r.2.1, d :: r.2.2)
    else (.statusEnvelope status, loggedIn, [])
termination_by MAX_RETRIES_ON_RATE_LIMIT - tries
decreasing_by omega

/-- `Connection.post`: only the 429-with-budget case is handled; every
other status error is re-raised (`Except.error`).  The logged-in flag is
not touched on any path. -/
def postRun (resp : Nat → HttpResp) (randint : Nat → Nat → Nat) (loggedIn : Bool)
    (tries : Nat) : Except Nat JsonVal × Bool × List Nat :=
  match resp tries with
  | .ok b => (.ok b, loggedIn, [])
  | .err status =>
    if h : status = 429 ∧ tries < MAX_RETRIES_ON_RATE_LIMIT then
      let d := randint 1 (3 + tries * 2)
      let r := postRun resp randint loggedIn (tries + 1)
      (r.1, r.2.1, d :: r.2.2)
    else (.error status, loggedIn, [])
termination_by MAX_RETRIES_ON_RATE_LIMIT - tries
decreasing_by omega

/-- `Connection.put`: same shape as `post` in the source. -/
def putRun (resp : Nat → HttpResp) (randint : Nat → Nat → Nat) (loggedIn : Bool)
    (tries : Nat) : Except Nat JsonVal × Bool × List Nat :=
  match resp tries with
  | .ok b => (.ok b, loggedIn, [])
  | .err status =>
    if h : status = 429 ∧ tries < MAX_RETRIES_ON_RATE_LIMIT then
      let d := randint 1 (3 + tries * 2)
      let r := putRun resp randint loggedIn (tries + 1)
      (r.1, r.2.1, d :: r.2.2)
    else (.error status, loggedIn, [])
termination_by MAX_RETRIES_ON_RATE_LIMIT - tries
decreasing_by omega

/-! ## Action-result handling (`Connection._handle_action_result`) -/

/-- Python truthiness of a decoded JSON value (`if not response`). -/
def jsonFalsy : JsonVal → Bool
  | .null => true
  | .bool b => !b
  | .num n => n == 0
  | .str s => s.isEmpty
  | .arr xs => xs.isEmpty
  | .obj fs => fs.isEmpty

/-- Python `response == 429`: true exactly for the JSON number 429. -/
def isNum429 : JsonVal → Bool
  | .num n => n == 429
  | _ => false

/-- Result of `_handle_action_result` on a decoded body.  `accepted`
carries the extracted `requestID` value before `str(...)` is applied;
`attrError` models `response.get` raising on a non-dict value;
`invalid` models the raised "Invalid or no response". -/
inductive ActionOutcome : Type
  | invalid
  | throttled
  | accepted (requestID : JsonVal)
  | attrError

def handle_action_result (body : JsonVal) : ActionOutcome :=
  if jsonFalsy body then .invalid
  else if isNum429 body then .throttled
  else
    match body with
    | .obj fields =>
      match (lookupKV fields "data").getD (.obj []) with
      | .obj dfields => .accepted ((lookupKV dfields "requestID").getD (.num 0))
      | _ => .attrError
    | _ => .attrError

/-- Outcome of an action wrapper such as `setClimater`: either the
handler ran on a delivered body, or the `post` call raised and the
wrapper re-raised (wrapped in "Unknown error during ..."). -/
inductive ActionCallResult : Type
  | handled (o : ActionOutcome)
  | raised (status : Nat)

/-- The common shape of the action wrappers (`setClimater`,
`setCharging`, `setLock`, ...): `post(..., return_raw=True)` followed by
`_handle_action_result`; a status error surviving the retry policy
propagates as an exception. -/
def actionRequest (resp : Nat → HttpResp) (randint : Nat → Nat → Nat) :
    ActionCallResult :=
  match (postRun resp randint true 0).1 with
  | .ok body => .handled (handle_action_result body)
  | .error s => .raised s

/-! ## Login redirect loop (`Connection._login`, redirect-following phase)

After the password POST the source loops: while the current URL does
not start with `APP_URI`, issue a GET (one hop), abort with
"User appears unauthorized" when the response has no `Location` header,
otherwise continue with the joined location, decrement the budget
(initially 10) and abort with "Too many redirects" when it reaches
zero.  `locs n` is the (already joined, absolute) `Location` of the
n-th hop's response; the second component of the result counts the GET
requests issued.  The source enters the loop with a positive budget, so
the budget-zero entry case never arises from the modelled call. -/
inductive RedirectOutcome : Type
  | success (ref : String)
  | unauthorized
  | tooManyRedirects
deriving DecidableEq, Repr

/-- Python `ref.startswith(APP_URI)`. -/
def urlStartsWith (ref pre : String) : Bool :=
  charsPrefix pre.data ref.data

def followRedirects (appUri : String) (locs : Nat → Option String)
    (depth hop : Nat) (ref : String) : RedirectOutcome × Nat :=
  if urlStartsWith ref appUri then (.success ref, hop)
  else
    match locs hop with
    | none => (.unauthorized, hop + 1)
    | some nextRef =>
      if hd : depth ≤ 1 then (.tooManyRedirects, hop + 1)
      else followRedirects appUri locs (depth - 1) (hop + 1) nextRef
termination_by depth
decreasing_by omega

/-- The redirect phase as entered by `_login`: budget 10, zero hops so
far, starting from the password response's redirect target. -/
def loginRedirectPhase (appUri : String) (locs : Nat → Option String)
    (ref0 : String) : RedirectOutcome × Nat :=
  followRedirects appUri locs 10 0 ref0

/-! ## Login finalization (`Connection._login` lines 331-358 and
`Connection.doLogin` lines 93-104)

After the authorization code is obtained, `_login` posts the token
exchange, stores the decoded body under the client label, fails on a
non-200 status or an `error` field, runs the advisory identity-token
verification (setting the logged-in flag only when it succeeds), and
finally installs the bearer header — that last line sits outside the
`try`, so a body with no `access_token` key escapes as an uncaught
`KeyError` (`Except.error ()`).  `doLogin` then overwrites the
logged-in flag with `_login`'s boolean result and, on success, mirrors
the client token set under the "identity" label. -/
structure LoginState : Type where
  tokens : List (String × List (String × String))
  headers : List (String × String)
  loggedIn : Bool
deriving DecidableEq, Repr

def login_finalize (st : LoginState) (client : String) (status : Nat)
    (body : List (String × String)) (verifyOk : Bool) :
    Except Unit (Bool × LoginState) :=
  if status ≠ 200 then .ok (false, { st with loggedIn := false })
  else
    let st1 : LoginState := { st with tokens := setKV st.tokens client body }
    if (lookupKV body "error").isSome then .ok (false, { st1 with loggedIn := false })
    else
      let st2 : LoginState := if verifyOk then { st1 with loggedIn := true } else st1
      match lookupKV body "access_token" with
      | some a =>
        .ok (true, { st2 with headers := setKV st2.headers "Authorization" ("Bearer " ++ a) })
      | none => .error ()

def doLogin_finalize (st : LoginState) (status : Nat) (body : List (String × String))
    (verifyOk : Bool) : Except Unit LoginState :=
  match login_finalize st "Legacy" status body verifyOk with
  | .error e => .error e
  | .ok (ok, st1) =>
    let st2 : LoginState := { st1 with loggedIn := ok }
    if ok then
      .ok { st2 with tokens := setKV st2.tokens "identity" ((lookupKV st2.tokens "Legacy").getD []) }
    else .ok st2

/-! # Claims -/

/-- C1: when both decoded expiries satisfy `now + interval < expiry`
(with a non-negative refresh interval), the validity check returns
valid and issues no refresh call; when `now` is at or past either
expiry, exactly one refresh call is issued and the result is valid iff
that refresh succeeded. -/
theorem c1_validate_tokens_refresh_policy (id_exp at_exp now interval : Int)
    (refreshOk : Bool) (hint : 0 ≤ interval) :
    (now + interval < id_exp → now + interval < at_exp →
      validate_tokens_core id_exp at_exp now interval refreshOk = (true, 0)) ∧
    (now ≥ id_exp ∨ now ≥ at_exp →
      validate_tokens_core id_exp at_exp now interval refreshOk = (refreshOk, 1)) := by
  constructor
  · intro h1 h2
    have hn1 : ¬(now ≥ id_exp ∨ now ≥ at_exp) := by omega
    have hn2 : ¬(now + interval ≥ id_exp ∨ now + interval ≥ at_exp) := by omega
    unfold validate_tokens_core
    rw [if_neg hn1, if_neg hn2]
  · intro h
    unfold validate_tokens_core
    rw [if_pos h]

theorem c1_validate_tokens_refresh_policy_witness :
    validate_tokens_core 100 200 0 5 true = (true, 0) ∧
    validate_tokens_core 100 200 150 5 false = (false, 1) :=
  ⟨(c1_validate_tokens_refresh_policy 100 200 0 5 true (by decide)).1
      (by decide) (by decide),
   (c1_validate_tokens_refresh_policy 100 200 150 5 false (by decide)).2
      (by decide)⟩

/-- C10: invoking the validity check with no "identity" token set raises
`KeyError`, and `validate_login`, which catches only `OSError`, lets it
propagate instead of returning false. -/
theorem c10_missing_identity_keyerror
    (tokens : List (String × List (String × String)))
    (decodeExp : String → Option Int) (now interval : Int) (refreshOk : Bool)
    (h : lookupKV tokens "identity" = none) :
    validate_tokens tokens decodeExp now interval refreshOk =
      .error .keyError ∧
    validate_login tokens decodeExp now interval refreshOk =
      .error .keyError := by
  constructor
  · simp [validate_tokens, h]
  · simp [validate_login, validate_tokens, h]

theorem c10_missing_identity_keyerror_witness :
    validate_tokens [] (fun _ => none) 0 1 true = .error .keyError ∧
    validate_login [] (fun _ => none) 0 1 true = .error .keyError :=
  c10_missing_identity_keyerror [] (fun _ => none) 0 1 true rfl

/-- C5: the status-to-health mapping is total and exact (200, 204 and
207 give Up; 401 Unauthorized; 403 Forbidden; 429 the rate-limited
value; the synthetic transport code 1000 Error; every other code Down);
the value is recorded under the category matched by the URL, and a URL
matching no category leaves the mapping unchanged. -/
theorem c5_service_status_mapping :
    statusOf 200 = "Up" ∧ statusOf 204 = "Up" ∧ statusOf 207 = "Up" ∧
    statusOf 401 = "Unauthorized" ∧ statusOf 403 = "Forbidden" ∧
    statusOf 429 = "Rate limited" ∧ statusOf 1000 = "Error" ∧
    (∀ code : Nat, code ∉ ([200, 204, 207, 401, 403, 429, 1000] : List Nat) →
      statusOf code = "Down") ∧
    (∀ (svc : List (String × String)) (url : String) (code : Nat) (cat : String),
      statusCategory url = some cat →
      lookupKV (update_service_status svc url code) cat = some (statusOf code)) ∧
    (∀ (svc : List (String × String)) (url : String) (code : Nat),
      statusCategory url = none → update_service_status svc url code = svc) := by
  refine ⟨rfl, rfl, rfl, rfl, rfl, rfl, rfl, ?_, ?_, ?_⟩
  · intro code h
    simp only [List.mem_cons, List.not_mem_nil, or_false, not_or] at h
    obtain ⟨h200, h204, h207, h401, h403, h429, h1000⟩ := h
    simp [statusOf, h200, h204, h207, h401, h403, h429, h1000]
  · intro svc url code cat hcat
    unfold update_service_status
    rw [hcat]
    exact lookupKV_setKV_self svc cat (statusOf code)
  · intro svc url code hcat
    unfold update_service_status
    rw [hcat]

theorem c5_service_status_mapping_witness :
    statusOf 418 = "Down" ∧
    lookupKV (update_service_status [] "https://x.example/login/v1/idk/token" 429)
      "token" = some "Rate limited" ∧
    update_service_status [("vehicles", "Up")] "https://x.example/other" 500 =
      [("vehicles", "Up")] :=
  ⟨c5_service_status_mapping.2.2.2.2.2.2.2.1 418 (by decide),
   by
     have := c5_service_status_mapping.2.2.2.2.2.2.2.2.1 []
       "https://x.example/login/v1/idk/token" 429 "token" (by decide)
     simpa [statusOf] using this,
   c5_service_status_mapping.2.2.2.2.2.2.2.2.2 [("vehicles", "Up")]
     "https://x.example/other" 500 (by decide)⟩

/-- C2: a refresh call whose POST raises, or whose response status is
not 200, returns false without raising and leaves every field of the
existing identity token set unchanged. -/
theorem c2_refresh_failure_no_mutation (st : ConnState)
    (resp : Option (Nat × List (String × String))) (verifyThrows : Bool)
    (h : resp = none ∨ ∃ status body, resp = some (status, body) ∧ status ≠ 200) :
    (refresh_tokens st resp verifyThrows).1 = false ∧
    (refresh_tokens st resp verifyThrows).2.identityTokens =
      st.identityTokens := by
  rcases h with h | ⟨status, body, h, hs⟩ <;> subst h
  · cases hl : lookupKV st.identityTokens "refresh_token" <;>
      simp [refresh_tokens, hl]
  · cases hl : lookupKV st.identityTokens "refresh_token" <;>
      simp [refresh_tokens, hl, hs]

theorem c2_refresh_failure_no_mutation_witness :
    (refresh_tokens ⟨[("refresh_token", "R1"), ("access_token", "A1")], [], []⟩
      (some (500, [("access_token", "A2")])) false).1 = false ∧
    (refresh_tokens ⟨[("refresh_token", "R1"), ("access_token", "A1")], [], []⟩
      (some (500, [("access_token", "A2")])) false).2.identityTokens =
      [("refresh_token", "R1"), ("access_token", "A1")] :=
  c2_refresh_failure_no_mutation _ _ _
    (Or.inr ⟨500, [("access_token", "A2")], rfl, by decide⟩)

/-- C7 counterexample: a 200 refresh response whose body carries no
`id_token` key is not merged at all — the handler hits `KeyError` on
`tokens["id_token"]` inside the advisory verification call, the caught
exception makes the refresh return false, and the existing access token
"A1" survives instead of being overwritten by the returned "A2". -/
theorem c7_refresh_merge_counterexample :
    (refresh_tokens
      ⟨[("access_token", "A1"), ("id_token", "I1"), ("refresh_token", "R1")],
        [], []⟩
      (some (200, [("access_token", "A2")])) false).1 = false ∧
    lookupKV (refresh_tokens
      ⟨[("access_token", "A1"), ("id_token", "I1"), ("refresh_token", "R1")],
        [], []⟩
      (some (200, [("access_token", "A2")])) false).2.identityTokens
      "access_token" = some "A1" := by
  decide

/-- C7 amended: for a refresh whose endpoint returns 200 with a decoded
body that contains an `id_token` key (and whose advisory verification
call completes without raising), every key of the body overwrites the
matching key of the identity token set, keys absent from the body keep
their prior values, and the Authorization header becomes "Bearer "
followed by the merged access token. -/
theorem c7_refresh_merge (st : ConnState) (body : List (String × String))
    (r t a : String)
    (hrt : lookupKV st.identityTokens "refresh_token" = some r)
    (hid : lookupKV body "id_token" = some t)
    (hnd : (body.map Prod.fst).Nodup)
    (ha : lookupKV (mergeTokens st.identityTokens body) "access_token" = some a) :
    (refresh_tokens st (some (200, body)) false).1 = true ∧
    (refresh_tokens st (some (200, body)) false).2.identityTokens =
      mergeTokens st.identityTokens body ∧
    (∀ k v, lookupKV body k = some v →
      lookupKV (refresh_tokens st (some (200, body)) false).2.identityTokens k =
        some v) ∧
    (∀ k, lookupKV body k = none →
      lookupKV (refresh_tokens st (some (200, body)) false).2.identityTokens k =
        lookupKV st.identityTokens k) ∧
    lookupKV (refresh_tokens st (some (200, body)) false).2.headers
      "Authorization" = some ("Bearer " ++ a) := by
  have hres : refresh_tokens st (some (200, body)) false =
      (true,
        { identityTokens := mergeTokens st.identityTokens body,
          headers := setKV st.headers "Authorization" ("Bearer " ++ a),
          serviceStatus :=
            update_service_status st.serviceStatus "token" 200 }) := by
    simp [refresh_tokens, hrt, hid, ha]
  rw [hres]
  refine ⟨rfl, rfl, ?_, ?_, ?_⟩
  · intro k v hk
    exact lookupKV_mergeTokens_of_some st.identityTokens body k v hnd hk
  · intro k hk
    exact lookupKV_mergeTokens_of_none st.identityTokens body k hk
  · exact lookupKV_setKV_self st.headers "Authorization" ("Bearer " ++ a)

theorem c7_refresh_merge_witness :
    lookupKV (refresh_tokens
      ⟨[("access_token", "A1"), ("id_token", "I1"), ("refresh_token", "R1")],
        [], []⟩
      (some (200, [("access_token", "A2"), ("id_token", "I2")]))
      false).2.identityTokens "access_token" = some "A2" ∧
    lookupKV (refresh_tokens
      ⟨[("access_token", "A1"), ("id_token", "I1"), ("refresh_token", "R1")],
        [], []⟩
      (some (200, [("access_token", "A2"), ("id_token", "I2")]))
      false).2.identityTokens "id_token" = some "I2" ∧
    lookupKV (refresh_tokens
      ⟨[("access_token", "A1"), ("id_token", "I1"), ("refresh_token", "R1")],
        [], []⟩
      (some (200, [("access_token", "A2"), ("id_token", "I2")]))
      false).2.identityTokens "refresh_token" = some "R1" ∧
    lookupKV (refresh_tokens
      ⟨[("access_token", "A1"), ("id_token", "I1"), ("refresh_token", "R1")],
        [], []⟩
      (some (200, [("access_token", "A2"), ("id_token", "I2")]))
      false).2.headers "Authorization" = some ("Bearer " ++ "A2") := by
  have h := c7_refresh_merge
    ⟨[("access_token", "A1"), ("id_token", "I1"), ("refresh_token", "R1")],
      [], []⟩
    [("access_token", "A2"), ("id_token", "I2")] "R1" "I2" "A2"
    (by decide) (by decide) (by decide) (by decide)
  exact ⟨h.2.2.1 "access_token" "A2" (by decide),
         h.2.2.1 "id_token" "I2" (by decide),
         h.2.2.2.1 "refresh_token" (by decide),
         h.2.2.2.2⟩

/-- C4 counterexample: a `post` whose first attempt returns HTTP 401
re-raises the error immediately (no retry) but leaves the logged-in
flag untouched — here it stays `true` — contradicting the claim that
each of get, post and put flips the flag to false on 401. -/
theorem c4_401_counterexample :
    postRun (fun _ => .err 401) (fun _ _ => 1) true 0 =
      (.error 401, true, []) := by
  simp [postRun]

/-- C4 amended: a 401 response is never retried by any of the three
verb wrappers; `get` additionally clears the logged-in flag and returns
the status envelope, while `post` and `put` re-raise the error and
leave the flag unchanged. -/
theorem c4_401_policy (resp : Nat → HttpResp) (randint : Nat → Nat → Nat)
    (loggedIn : Bool) (h : resp 0 = .err 401) :
    getRun resp randint loggedIn 0 = (.statusEnvelope 401, false, []) ∧
    postRun resp randint loggedIn 0 = (.error 401, loggedIn, []) ∧
    putRun resp randint loggedIn 0 = (.error 401, loggedIn, []) := by
  refine ⟨?_, ?_, ?_⟩
  · simp [getRun, h]
  · simp [postRun, h]
  · simp [putRun, h]

theorem c4_401_policy_witness :
    getRun (fun _ => .err 401) (fun _ _ => 1) true 0 =
      (.statusEnvelope 401, false, []) ∧
    postRun (fun _ => .err 401) (fun _ _ => 1) true 0 =
      (.error 401, true, []) ∧
    putRun (fun _ => .err 401) (fun _ _ => 1) true 0 =
      (.error 401, true, []) :=
  c4_401_policy (fun _ => .err 401) (fun _ _ => 1) true rfl

/-! Helper lemmas on the retry recursion, shared by several claims. -/

theorem getRun_all429 (resp : Nat → HttpResp) (randint : Nat → Nat → Nat)
    (li : Bool) (h429 : ∀ i, resp i = .err 429) :
    getRun resp randint li 0 =
      (.statusEnvelope 429, li, [randint 1 3, randint 1 5, randint 1 7]) := by
  have g3 : getRun resp randint li 3 = (.statusEnvelope 429, li, []) := by
    rw [getRun.eq_def, h429 3]
    simp [MAX_RETRIES_ON_RATE_LIMIT]
  have g2 : getRun resp randint li 2 =
      (.statusEnvelope 429, li, [randint 1 7]) := by
    rw [getRun.eq_def, h429 2]
    simp [MAX_RETRIES_ON_RATE_LIMIT, g3]
  have g1 : getRun resp randint li 1 =
      (.statusEnvelope 429, li, [randint 1 5, randint 1 7]) := by
    rw [getRun.eq_def, h429 1]
    simp [MAX_RETRIES_ON_RATE_LIMIT, g2]
  rw [getRun.eq_def, h429 0]
  simp [MAX_RETRIES_ON_RATE_LIMIT, g1]

theorem postRun_all429 (resp : Nat → HttpResp) (randint : Nat → Nat → Nat)
    (li : Bool) (h429 : ∀ i, resp i = .err 429) :
    postRun resp randint li 0 =
      (.error 429, li, [randint 1 3, randint 1 5, randint 1 7]) := by
  have g3 : postRun resp randint li 3 = (.error 429, li, []) := by
    rw [postRun.eq_def, h429 3]
    simp [MAX_RETRIES_ON_RATE_LIMIT]
  have g2 : postRun resp randint li 2 = (.error 429, li, [randint 1 7]) := by
    rw [postRun.eq_def, h429 2]
    simp [MAX_RETRIES_ON_RATE_LIMIT, g3]
  have g1 : postRun resp randint li 1 =
      (.error 429, li, [randint 1 5, randint 1 7]) := by
    rw [postRun.eq_def, h429 1]
    simp [MAX_RETRIES_ON_RATE_LIMIT, g2]
  rw [postRun.eq_def, h429 0]
  simp [MAX_RETRIES_ON_RATE_LIMIT, g1]

theorem putRun_all429 (resp : Nat → HttpResp) (randint : Nat → Nat → Nat)
    (li : Bool) (h429 : ∀ i, resp i = .err 429) :
    putRun resp randint li 0 =
      (.error 429, li, [randint 1 3, randint 1 5, randint 1 7]) := by
  have g3 : putRun resp randint li 3 = (.error 429, li, []) := by
    rw [putRun.eq_def, h429 3]
    simp [MAX_RETRIES_ON_RATE_LIMIT]
  have g2 : putRun resp randint li 2 = (.error 429, li, [randint 1 7]) := by
    rw [putRun.eq_def, h429 2]
    simp [MAX_RETRIES_ON_RATE_LIMIT, g3]
  have g1 : putRun resp randint li 1 =
      (.error 429, li, [randint 1 5, randint 1 7]) := by
    rw [putRun.eq_def, h429 1]
    simp [MAX_RETRIES_ON_RATE_LIMIT, g2]
  rw [putRun.eq_def, h429 0]
  simp [MAX_RETRIES_ON_RATE_LIMIT, g1]

theorem getRun_retry_budget (resp : Nat → HttpResp) (randint : Nat → Nat → Nat)
    (li : Bool) :
    ∀ fuel tries, MAX_RETRIES_ON_RATE_LIMIT ≤ tries + fuel →
      (getRun resp randint li tries).2.2.length ≤ fuel := by
  intro fuel
  induction fuel with
  | zero =>
    intro tries h
    rw [getRun.eq_def]
    cases hr : resp tries with
    | ok b => simp
    | err s =>
      have hc : ¬(s = 429 ∧ tries < MAX_RETRIES_ON_RATE_LIMIT) := by omega
      dsimp only
      split_ifs <;> simp_all
  | succ n ih =>
    intro tries h
    rw [getRun.eq_def]
    cases hr : resp tries with
    | ok b => simp
    | err s =>
      have hbound := ih (tries + 1) (by omega)
      dsimp only
      split_ifs <;> simp_all

theorem postRun_retry_budget (resp : Nat → HttpResp) (randint : Nat → Nat → Nat)
    (li : Bool) :
    ∀ fuel tries, MAX_RETRIES_ON_RATE_LIMIT ≤ tries + fuel →
      (postRun resp randint li tries).2.2.length ≤ fuel := by
  intro fuel
  induction fuel with
  | zero =>
    intro tries h
    rw [postRun.eq_def]
    cases hr : resp tries with
    | ok b => simp
    | err s =>
      have hc : ¬(s = 429 ∧ tries < MAX_RETRIES_ON_RATE_LIMIT) := by omega
      dsimp only
      split_ifs <;> simp_all
  | succ n ih =>
    intro tries h
    rw [postRun.eq_def]
    cases hr : resp tries with
    | ok b => simp
    | err s =>
      have hbound := ih (tries + 1) (by omega)
      dsimp only
      split_ifs <;> simp_all

theorem putRun_retry_budget (resp : Nat → HttpResp) (randint : Nat → Nat → Nat)
    (li : Bool) :
    ∀ fuel tries, MAX_RETRIES_ON_RATE_LIMIT ≤ tries + fuel →
      (putRun resp randint li tries).2.2.length ≤ fuel := by
  intro fuel
  induction fuel with
  | zero =>
    intro tries h
    rw [putRun.eq_def]
    cases hr : resp tries with
    | ok b => simp
    | err s =>
      have hc : ¬(s = 429 ∧ tries < MAX_RETRIES_ON_RATE_LIMIT) := by omega
      dsimp only
      split_ifs <;> simp_all
  | succ n ih =>
    intro tries h
    rw [putRun.eq_def]
    cases hr : resp tries with
    | ok b => simp
    | err s =>
      have hbound := ih (tries + 1) (by omega)
      dsimp only
      split_ifs <;> simp_all

/-- C3: each of get, post and put retries a 429 response at most
MAX_RETRIES_ON_RATE_LIMIT (3) times, each back-off delay is the random
draw from the inclusive interval 1 to 3 + 2·attempt, and once the
budget is exhausted the 429 failure is surfaced to the caller (as a
status envelope for get, as a re-raised error for post and put). -/
theorem c3_rate_limit_retry (resp : Nat → HttpResp) (randint : Nat → Nat → Nat)
    (loggedIn : Bool)
    (h429 : ∀ i, resp i = .err 429)
    (hrand : ∀ lo hi, lo ≤ hi → lo ≤ randint lo hi ∧ randint lo hi ≤ hi) :
    getRun resp randint loggedIn 0 =
      (.statusEnvelope 429, loggedIn, [randint 1 3, randint 1 5, randint 1 7]) ∧
    postRun resp randint loggedIn 0 =
      (.error 429, loggedIn, [randint 1 3, randint 1 5, randint 1 7]) ∧
    putRun resp randint loggedIn 0 =
      (.error 429, loggedIn, [randint 1 3, randint 1 5, randint 1 7]) ∧
    (∀ i : Nat, i < MAX_RETRIES_ON_RATE_LIMIT →
      1 ≤ randint 1 (3 + i * 2) ∧ randint 1 (3 + i * 2) ≤ 3 + i * 2) ∧
    (∀ resp2 : Nat → HttpResp,
      (getRun resp2 randint loggedIn 0).2.2.length ≤ MAX_RETRIES_ON_RATE_LIMIT ∧
      (postRun resp2 randint loggedIn 0).2.2.length ≤ MAX_RETRIES_ON_RATE_LIMIT ∧
      (putRun resp2 randint loggedIn 0).2.2.length ≤ MAX_RETRIES_ON_RATE_LIMIT) := by
  refine ⟨getRun_all429 resp randint loggedIn h429,
          postRun_all429 resp randint loggedIn h429,
          putRun_all429 resp randint loggedIn h429, ?_, ?_⟩
  · intro i _
    exact hrand 1 (3 + i * 2) (by omega)
  · intro resp2
    exact ⟨getRun_retry_budget resp2 randint loggedIn 3 0 (by decide),
           postRun_retry_budget resp2 randint loggedIn 3 0 (by decide),
           putRun_retry_budget resp2 randint loggedIn 3 0 (by decide)⟩

theorem c3_rate_limit_retry_witness :
    getRun (fun _ => .err 429) (fun lo _ => lo) true 0 =
      (.statusEnvelope 429, true, [1, 1, 1]) ∧
    postRun (fun _ => .err 429) (fun lo _ => lo) true 0 =
      (.error 429, true, [1, 1, 1]) ∧
    putRun (fun _ => .err 429) (fun lo _ => lo) true 0 =
      (.error 429, true, [1, 1, 1]) := by
  have h := c3_rate_limit_retry (fun _ => .err 429) (fun lo _ => lo) true
    (fun _ => rfl) (fun lo hi hle => ⟨Nat.le_refl lo, hle⟩)
  exact ⟨h.1, h.2.1, h.2.2.1⟩

/-- C8 counterexample: an action call whose HTTP status is 429 on every
attempt never reaches `_handle_action_result` — `raise_for_status`
raises, `post` exhausts its retries and re-raises, and the wrapper
surfaces the error — so the result is a raised 429, not the sentinel
mapping with id null and state "Throttled". -/
theorem c8_throttled_counterexample :
    actionRequest (fun _ => .err 429) (fun _ _ => 1) = .raised 429 ∧
    ActionCallResult.raised 429 ≠ .handled .throttled := by
  constructor
  · unfold actionRequest
    rw [postRun_all429 _ _ _ (fun _ => rfl)]
  · intro hcontra
    exact ActionCallResult.noConfusion hcontra

/-- C8 amended: `_handle_action_result` yields the Throttled sentinel
exactly when the decoded response body is the JSON number 429 (the
source compares the decoded body, not the HTTP status, against 429);
a transport-level HTTP 429 instead propagates as a raised error. -/
theorem c8_throttled_sentinel (body : JsonVal) :
    handle_action_result body = .throttled ↔ body = JsonVal.num 429 := by
  constructor
  · intro h
    unfold handle_action_result at h
    split_ifs at h with hf h429
    · cases body with
      | num n =>
        have hn : n = 429 := by simpa [isNum429] using h429
        rw [hn]
      | null => simp [isNum429] at h429
      | bool b => simp [isNum429] at h429
      | str s => simp [isNum429] at h429
      | arr xs => simp [isNum429] at h429
      | obj fs => simp [isNum429] at h429
    · exfalso
      cases body with
      | obj fs =>
        dsimp only at h
        cases hdata : (lookupKV fs "data").getD (JsonVal.obj []) <;>
          rw [hdata] at h <;> simp at h
      | null => simp at h
      | bool b => simp at h
      | num n => simp at h
      | str s => simp at h
      | arr xs => simp at h
  · intro h
    rw [h]
    rfl

/-! Helper lemmas for the redirect loop. -/

theorem followRedirects_all_miss (appUri : String) (locs : Nat → Option String)
    (L : Nat → String) (hl : ∀ i, locs i = some (L i))
    (hL : ∀ i, urlStartsWith (L i) appUri = false) :
    ∀ (d hop : Nat) (ref : String), urlStartsWith ref appUri = false →
      followRedirects appUri locs (d + 1) hop ref =
        (.tooManyRedirects, hop + (d + 1)) := by
  intro d
  induction d with
  | zero =>
    intro hop ref h
    rw [followRedirects.eq_def,
      if_neg (by simp [h] : ¬(urlStartsWith ref appUri = true)), hl hop]
    dsimp only
    rw [dif_pos (by omega : 0 + 1 ≤ 1)]
  | succ n ih =>
    intro hop ref h
    rw [followRedirects.eq_def,
      if_neg (by simp [h] : ¬(urlStartsWith ref appUri = true)), hl hop]
    dsimp only
    rw [dif_neg (by omega : ¬(n + 1 + 1 ≤ 1)),
      (by omega : n + 1 + 1 - 1 = n + 1), ih (hop + 1) (L hop) (hL hop)]
    simp only [Prod.mk.injEq, true_and]
    omega

theorem followRedirects_no_location (appUri : String) (locs : Nat → Option String)
    (L : Nat → String)
    (hL : ∀ i, urlStartsWith (L i) appUri = false) :
    ∀ (k d hop : Nat) (ref : String), k < d + 1 →
      (∀ i, i < k → locs (hop + i) = some (L (hop + i))) →
      locs (hop + k) = none →
      urlStartsWith ref appUri = false →
      followRedirects appUri locs (d + 1) hop ref =
        (.unauthorized, hop + k + 1) := by
  intro k
  induction k with
  | zero =>
    intro d hop ref _ _ hk h
    simp only [Nat.add_zero] at hk
    rw [followRedirects.eq_def,
      if_neg (by simp [h] : ¬(urlStartsWith ref appUri = true)), hk]
  | succ m ih =>
    intro d hop ref hkd hsome hk h
    have hloc0 : locs hop = some (L hop) := by simpa using hsome 0 (by omega)
    obtain ⟨e, rfl⟩ : ∃ e, d = e + 1 := ⟨d - 1, by omega⟩
    rw [followRedirects.eq_def,
      if_neg (by simp [h] : ¬(urlStartsWith ref appUri = true)), hloc0]
    dsimp only
    rw [dif_neg (by omega : ¬(e + 1 + 1 ≤ 1)),
      (by omega : e + 1 + 1 - 1 = e + 1),
      ih e (hop + 1) (L hop) (by omega)
        (fun i hi => by
          have hs := hsome (i + 1) (by omega)
          have harith : hop + (i + 1) = hop + 1 + i := by omega
          rw [harith] at hs
          exact hs)
        (by
          have harith : hop + (m + 1) = hop + 1 + m := by omega
          rw [harith] at hk
          exact hk)
        (hL hop)]
    simp only [Prod.mk.injEq, true_and]
    omega

/-- C6: in the post-password redirect loop, if no visited URL starts
with the application redirect URI and every response carries a
Location header, the flow aborts with the "Too many redirects" failure
after exactly 10 redirect hops; and a hop whose response carries no
Location header aborts with the "unauthorized" failure as soon as it is
reached. -/
theorem c6_redirect_loop (appUri ref0 : String) (locs : Nat → Option String)
    (L : Nat → String)
    (h0 : urlStartsWith ref0 appUri = false)
    (hL : ∀ i, urlStartsWith (L i) appUri = false) :
    ((∀ i, locs i = some (L i)) →
      loginRedirectPhase appUri locs ref0 = (.tooManyRedirects, 10)) ∧
    (∀ k, k < 10 → (∀ i, i < k → locs i = some (L i)) → locs k = none →
      loginRedirectPhase appUri locs ref0 = (.unauthorized, k + 1)) := by
  constructor
  · intro hl
    have h := followRedirects_all_miss appUri locs L hl hL 9 0 ref0 h0
    simpa [loginRedirectPhase] using h
  · intro k hk hsome hnone
    have h := followRedirects_no_location appUri locs L hL k 9 0 ref0
      (by omega) (fun i hi => by simpa using hsome i hi) (by simpa using hnone)
      h0
    simpa [loginRedirectPhase] using h

theorem c6_redirect_loop_witness :
    loginRedirectPhase "https://app.example/callback"
      (fun _ => some "https://idp.example/next") "https://idp.example/start" =
      (.tooManyRedirects, 10) ∧
    loginRedirectPhase "https://app.example/callback"
      (fun i => if i < 4 then some "https://idp.example/next" else none)
      "https://idp.example/start" = (.unauthorized, 5) := by
  have hmiss : ∀ i : Nat,
      urlStartsWith ((fun _ : Nat => "https://idp.example/next") i)
        "https://app.example/callback" = false := by
    intro i
    show urlStartsWith "https://idp.example/next" "https://app.example/callback" =
      false
    decide
  have h1 := (c6_redirect_loop "https://app.example/callback"
      "https://idp.example/start" (fun _ => some "https://idp.example/next")
      (fun _ => "https://idp.example/next") (by decide) hmiss).1
    (fun _ => rfl)
  have h2 := (c6_redirect_loop "https://app.example/callback"
      "https://idp.example/start"
      (fun i => if i < 4 then some "https://idp.example/next" else none)
      (fun _ => "https://idp.example/next") (by decide) hmiss).2
    4 (by decide) (fun i hi => by simp [hi]) (by simp)
  exact ⟨h1, h2⟩

/-- C9: after a successful (status 200, no error field) token exchange,
login completes for every verification outcome — for both values of
`verifyOk` the finished state is logged in, the token set is stored
under the "Legacy" label and mirrored under the canonical "identity"
label, and the Authorization header is "Bearer " followed by the fresh
access token. -/
theorem c9_advisory_verification (st : LoginState)
    (body : List (String × String)) (verifyOk : Bool) (a : String)
    (ha : lookupKV body "access_token" = some a)
    (herr : lookupKV body "error" = none) :
    ∃ stF, doLogin_finalize st 200 body verifyOk = .ok stF ∧
      stF.loggedIn = true ∧
      lookupKV stF.tokens "identity" = some body ∧
      lookupKV stF.tokens "Legacy" = some body ∧
      lookupKV stF.headers "Authorization" = some ("Bearer " ++ a) := by
  have key : doLogin_finalize st 200 body verifyOk =
      .ok { tokens := setKV (setKV st.tokens "Legacy" body) "identity" body,
            headers := setKV st.headers "Authorization" ("Bearer " ++ a),
            loggedIn := true } := by
    cases verifyOk <;>
      simp [doLogin_finalize, login_finalize, herr, ha, lookupKV_setKV_self]
  refine ⟨_, key, rfl, ?_, ?_, ?_⟩
  · exact lookupKV_setKV_self _ "identity" body
  · rw [lookupKV_setKV_other _ "identity" "Legacy" body (by decide)]
    exact lookupKV_setKV_self _ "Legacy" body
  · exact lookupKV_setKV_self _ "Authorization" ("Bearer " ++ a)

theorem c9_advisory_verification_witness :
    (∃ stF, doLogin_finalize ⟨[], [], false⟩ 200
        [("access_token", "A1"), ("id_token", "I1")] false = .ok stF ∧
      stF.loggedIn = true ∧
      lookupKV stF.tokens "identity" =
        some [("access_token", "A1"), ("id_token", "I1")] ∧
      lookupKV stF.tokens "Legacy" =
        some [("access_token", "A1"), ("id_token", "I1")] ∧
      lookupKV stF.headers "Authorization" = some ("Bearer " ++ "A1")) :=
  c9_advisory_verification ⟨[], [], false⟩
    [("access_token", "A1"), ("id_token", "I1")] false "A1"
    (by decide) (by decide)

end VW
